import Mathlib

/-!
Verification of the CDI figure-output component
(`cdi_ml/theme_minimal.py` and `cdi_ml/helpers.py`): shared
chapter/counter session state, deterministic path allocation, the
best-effort embedding reporter, and the three backend save adapters.
-/

namespace CdiMl

/-! ### String and path utilities (model of Python `str`/`pathlib` operations used) -/

/-- Split a character list on the separator `/` (model of path components). -/
def splitOnSlash : List Char → List (List Char)
  | [] => [[]]
  | c :: cs =>
    match splitOnSlash cs with
    | [] => [[]]
    | g :: gs => if c = '/' then [] :: g :: gs else (c :: g) :: gs

/-- Rejoin path components with `/`. -/
def joinSegs : List (List Char) → List Char
  | [] => []
  | [s] => s
  | s :: t :: rest => s ++ '/' :: joinSegs (t :: rest)

/-- All nonempty leading runs of a component list. -/
def frontsOf : List (List Char) → List (List (List Char))
  | [] => []
  | s :: rest => [s] :: (frontsOf rest).map (fun pre => s :: pre)

/-- The directories created by `Path(p).mkdir(parents=True, exist_ok=True)`:
`p` itself and every ancestor of `p`. -/
def mkdirPaths (p : String) : List String :=
  (frontsOf (splitOnSlash p.data)).map (fun segs => String.mk (joinSegs segs))

/-- Characters strictly before the last `/` of a path. -/
def parentChars : List Char → List Char
  | [] => []
  | c :: cs => if '/' ∈ cs then c :: parentChars cs else []

/-- Model of `Path(p).parent` as used by the save model: the directory part of
`p`, empty when `p` has no `/` (meaning the current working directory). -/
def parentDir (p : String) : String :=
  String.mk (parentChars p.data)

/-- Model of `str(Path(folder) / name)`. -/
def joinPath (folder name : String) : String :=
  if folder = "" then name else folder ++ "/" ++ name

/-- Decimal digit characters. -/
def digitChar : Nat → Char
  | 0 => '0'
  | 1 => '1'
  | 2 => '2'
  | 3 => '3'
  | 4 => '4'
  | 5 => '5'
  | 6 => '6'
  | 7 => '7'
  | 8 => '8'
  | _ => '9'

/-- Fuel-indexed decimal digit expansion, most significant digit first. -/
def natDigitsAux : Nat → Nat → List Char
  | 0, _ => []
  | fuel + 1, n => if n = 0 then [] else natDigitsAux fuel (n / 10) ++ [digitChar (n % 10)]

/-- Decimal rendering of a natural number (model of Python `str(n)` / `%d`). -/
def natRepr (n : Nat) : String :=
  if n = 0 then "0" else String.mk (natDigitsAux (n + 1) n)

/-- Model of Python `str.zfill(width)`: left-pad with `0` to length `width`,
keeping a leading sign in front of the padding; strings already at least
`width` long are returned unchanged. -/
def zfill (s : String) (width : Nat) : String :=
  if width ≤ s.length then s
  else
    match s.data with
    | c :: rest =>
      if c = '+' ∨ c = '-' then
        String.mk (c :: (List.replicate (width - s.length) '0' ++ rest))
      else
        String.mk (List.replicate (width - s.length) '0' ++ (c :: rest))
    | [] => String.mk (List.replicate (width - s.length) '0')

/-- Model of the f-string format `{n:03d}`. -/
def fmt03 (n : Nat) : String :=
  zfill (natRepr n) 3

/-! ### Environment model: filesystem, notebook display, matplotlib backend -/

/-- A file written by one of the save adapters, with the arguments the
adapter passed to the underlying library. -/
inductive FileRec where
  | mplPng (figId : Nat) (path : String) (dpi : Nat) (tightBBox : Bool)
  | plotlyPng (path : String) (scale : Nat)
  | plotninePng (path : String) (dpi : Nat)
deriving DecidableEq

/-- The path of a written file. -/
def FileRec.path : FileRec → String
  | .mplPng _ p _ _ => p
  | .plotlyPng p _ => p
  | .plotninePng p _ => p

/-- Filesystem model: the set of existing directories and the written files
(most recent first). -/
structure FS where
  dirs : List String
  files : List FileRec
deriving DecidableEq

/-- Model of `Path(p).mkdir(parents=True, exist_ok=True)`: `p` and all its
ancestors exist afterwards; never fails. -/
def FS.mkdirParentsExistOk (fs : FS) (p : String) : FS :=
  { fs with dirs := mkdirPaths p ++ fs.dirs }

/-- Model of `Path(p).mkdir(exist_ok=True)` (no `parents=True`): only `p`
itself is created. -/
def FS.mkdirExistOk (fs : FS) (p : String) : FS :=
  { fs with dirs := p :: fs.dirs }

/-- A Python exception: its message and, for `raise ... from e`, the chained
cause. -/
structure PyError where
  msg : String
  cause : Option String
deriving DecidableEq

/-- The optional IPython display capability: either the import failed
(`display`/`Markdown` are `None`) or it is a callable whose invocation on a
markdown source may succeed or itself raise. -/
inductive DisplayCap where
  | unavailable
  | available (callDisplay : String → Except String Unit)

/-- Output produced in the notebook: plain `print`, an inline markdown
display, or an interactive `fig.show()`. -/
inductive NotebookOutput where
  | printed (text : String)
  | displayedMarkdown (md : String)
  | shownFigure
deriving DecidableEq

/-- The markdown image reference built by `_embed`. -/
def markdownImage (path : String) : String :=
  "![](" ++ path ++ ")"

/-- Model of `theme_minimal._embed`: if the display capability is missing,
print the path; otherwise call `display(Markdown(...))`, whose own failure
propagates (there is no try/except around the call). -/
def _embed (cap : DisplayCap) (path : String) : Except PyError NotebookOutput :=
  match cap with
  | .unavailable => .ok (.printed path)
  | .available callDisplay =>
    match callDisplay (markdownImage path) with
    | .ok _ => .ok (.displayedMarkdown (markdownImage path))
    | .error e => .error ⟨e, none⟩

/-- A matplotlib figure object. -/
structure MplFigure where
  id : Nat
deriving DecidableEq

/-- The matplotlib global context: the current figure (`plt.gcf()`) and the
ids of the open figures. -/
structure MplBackend where
  current : MplFigure
  openIds : List Nat
deriving DecidableEq

/-- Model of `plt.close(fig)`: remove the figure from the global context. -/
def MplBackend.closeFig (m : MplBackend) (f : MplFigure) : MplBackend :=
  { m with openIds := m.openIds.filter (fun i => i != f.id) }

/-- Model of `fig.savefig(path, dpi=dpi, bbox_inches="tight")`: writes the
file if the parent directory exists (the empty parent is the working
directory), otherwise raises. -/
def savefig (fs : FS) (f : MplFigure) (path : String) (dpi : Nat) (tight : Bool) :
    Except String FS :=
  if parentDir path = "" ∨ parentDir path ∈ fs.dirs then
    .ok { fs with files := .mplPng f.id path dpi tight :: fs.files }
  else
    .error ("FileNotFoundError: " ++ path)

namespace theme_minimal

/-- The module-level `_STATE` dict of `theme_minimal.py`:
`{"chapter": "01", "counter": 0}`. -/
structure ThemeState where
  chapter : String
  counter : Nat
deriving DecidableEq

/-- The initial `_STATE` at import time. -/
def initialState : ThemeState :=
  { chapter := "01", counter := 0 }

/-- The whole mutable world a `theme_minimal` call can touch: the session
state, the filesystem, the matplotlib context and the notebook output
stream (most recent first). -/
structure World where
  state : ThemeState
  fs : FS
  mpl : MplBackend
  out : List NotebookOutput
deriving DecidableEq

/-- Model of `theme_minimal.cdi_notebook_init(chapter=...)`: store
`str(chapter).zfill(2)`, reset the counter to 0, create `figures/` with
parents, succeeding if it exists. The prior state `s` is ignored. -/
def cdi_notebook_init (chapter : String) (s : ThemeState) (fs : FS) : ThemeState × FS :=
  let s1 : ThemeState := { s with chapter := zfill chapter 2, counter := 0 }
  (s1, fs.mkdirParentsExistOk "figures")

/-- Model of `theme_minimal._next_path(folder=..., ext=...)`: increment the
counter, create `folder` (with parents, exist_ok), return
`str(Path(folder) / f"{chapter}_{counter:03d}.{ext}")`. -/
def _next_path (folder ext : String) (s : ThemeState) (fs : FS) :
    String × ThemeState × FS :=
  let s1 : ThemeState := { s with counter := s.counter + 1 }
  let fs1 := fs.mkdirParentsExistOk folder
  let name := s1.chapter ++ "_" ++ fmt03 s1.counter ++ "." ++ ext
  (joinPath folder name, s1, fs1)

/-- Model of `theme_minimal.show_and_save_mpl(fig=None, *, dpi=300,
folder="figures", emit_markdown=True, close=True)`: default to `plt.gcf()`,
allocate a path with extension `png`, `fig.savefig(out, dpi, bbox_inches="tight")`,
optionally `_embed(out)`, optionally `plt.close(fig)`, return `out`. An
exception at any step leaves the side effects already performed. -/
def show_and_save_mpl (cap : DisplayCap) (fig : Option MplFigure) (dpi : Nat)
    (folder : String) (emit_markdown : Bool) (close : Bool) (w : World) :
    Except PyError String × World :=
  let f := fig.getD w.mpl.current
  let r := _next_path folder "png" w.state w.fs
  let out := r.1
  let w1 : World := { w with state := r.2.1, fs := r.2.2 }
  match savefig w1.fs f out dpi true with
  | .error e => (.error ⟨e, none⟩, w1)
  | .ok fs2 =>
    let w2 : World := { w1 with fs := fs2 }
    if emit_markdown then
      match _embed cap out with
      | .error pe => (.error pe, w2)
      | .ok o =>
        let w3 : World := { w2 with out := o :: w2.out }
        (.ok out, if close then { w3 with mpl := w3.mpl.closeFig f } else w3)
    else
      (.ok out, if close then { w2 with mpl := w2.mpl.closeFig f } else w2)

/-- The remediation message composed by `show_and_save_plotly` when
`fig.write_image` raises with message `e`. -/
def kaleidoHint (e : String) : String :=
  "Plotly PNG export failed. Install kaleido:\n  pip install -U kaleido\nReason: " ++ e

/-- Model of `theme_minimal.show_and_save_plotly(fig, *, folder="figures",
scale=2, show=False, emit_markdown=True)`. The outcome of the external
`fig.write_image(out, scale=scale)` call is the parameter `writeImage`; on
its failure the adapter raises `RuntimeError(kaleidoHint e) from e`. -/
def show_and_save_plotly (cap : DisplayCap) (writeImage : Except String Unit)
    (folder : String) (scale : Nat) (showFig : Bool) (emit_markdown : Bool)
    (w : World) : Except PyError String × World :=
  let r := _next_path folder "png" w.state w.fs
  let out := r.1
  let w1 : World := { w with state := r.2.1, fs := r.2.2 }
  let w2 : World := if showFig then { w1 with out := .shownFigure :: w1.out } else w1
  match writeImage with
  | .error e => (.error ⟨kaleidoHint e, some e⟩, w2)
  | .ok _ =>
    let w3 : World := { w2 with fs := { w2.fs with files := .plotlyPng out scale :: w2.fs.files } }
    if emit_markdown then
      match _embed cap out with
      | .error pe => (.error pe, w3)
      | .ok o => (.ok out, { w3 with out := o :: w3.out })
    else
      (.ok out, w3)

/-- Model of `theme_minimal.show_and_save_plotnine(p, *, folder="figures",
dpi=300, emit_markdown=True, **kwargs)`: the delegated `p.save(out, dpi=dpi,
verbose=False, **kwargs)` outcome is the parameter `saveResult`; its failure
propagates unmodified. -/
def show_and_save_plotnine (cap : DisplayCap) (saveResult : Except String Unit)
    (folder : String) (dpi : Nat) (emit_markdown : Bool) (w : World) :
    Except PyError String × World :=
  let r := _next_path folder "png" w.state w.fs
  let out := r.1
  let w1 : World := { w with state := r.2.1, fs := r.2.2 }
  match saveResult with
  | .error e => (.error ⟨e, none⟩, w1)
  | .ok _ =>
    let w2 : World := { w1 with fs := { w1.fs with files := .plotninePng out dpi :: w1.fs.files } }
    if emit_markdown then
      match _embed cap out with
      | .error pe => (.error pe, w2)
      | .ok o => (.ok out, { w2 with out := o :: w2.out })
    else
      (.ok out, w2)

/-! ### Plotly layout model -/

/-- A plotly margin dict `dict(l=..., r=..., t=..., b=...)`. -/
structure PlotlyMargin where
  l : Nat
  r : Nat
  t : Nat
  b : Nat
deriving DecidableEq

/-- A plotly legend dict `dict(orientation=..., y=..., x=...)`. -/
structure PlotlyLegendCfg where
  orientation : String
  y : ℚ
  x : ℚ
deriving DecidableEq

/-- The layout fields `set_cdi_plotly_layout` can touch. `none` means the
field has not been set. -/
structure PlotlyLayout where
  title : Option String
  title_x : Option ℚ
  margin : Option PlotlyMargin
  legend : Option PlotlyLegendCfg
deriving DecidableEq

/-- A plotly figure object (as far as this component observes it). -/
structure PlotlyFigure where
  layout : PlotlyLayout
deriving DecidableEq

/-- The `CDI_PALETTE` dict of `theme_minimal.py`. -/
def CDI_PALETTE (key : String) : Option String :=
  if key = "ink" then some "#374151"
  else if key = "muted" then some "#6B7280"
  else if key = "title" then some "#036281"
  else if key = "grid" then some "#E5E7EB"
  else none

/-- The composed title used when both title and subtitle are given:
`f"{title}<br><span style='font-size:0.85em; color:{CDI_PALETTE['muted']}'>{subtitle}</span>"`. -/
def subtitledTitle (title subtitle : String) : String :=
  title ++ "<br><span style=\x27font-size:0.85em; color:" ++
    (CDI_PALETTE "muted").getD "" ++ "\x27>" ++ subtitle ++ "</span>"

/-- Model of `theme_minimal.set_cdi_plotly_layout(fig, *, title=None,
subtitle=None, title_x=0.5, legend_orientation="h", legend_y=-0.25,
legend_x=0.0, margin=None)`. -/
def set_cdi_plotly_layout (fig : PlotlyFigure) (title subtitle : Option String)
    (title_x : ℚ) (legend_orientation : String) (legend_y legend_x : ℚ)
    (margin : Option PlotlyMargin) : PlotlyFigure :=
  let m := margin.getD { l := 40, r := 20, t := 85, b := 55 }
  let fig1 : PlotlyFigure :=
    match title, subtitle with
    | some t, some st =>
      { fig with layout := { fig.layout with title := some (subtitledTitle t st) } }
    | some t, none =>
      { fig with layout := { fig.layout with title := some t } }
    | none, _ => fig
  { fig1 with layout := { fig1.layout with
      title_x := some title_x,
      margin := some m,
      legend := some { orientation := legend_orientation, y := legend_y, x := legend_x } } }

/-! ### Sequential runs mixing the three adapters -/

/-- One save operation: which adapter is called, its arguments, and the
outcome of the relevant external library call. -/
inductive SaveOp where
  | mpl (fig : Option MplFigure) (dpi : Nat) (emit_markdown close : Bool)
  | plotly (writeImage : Except String Unit) (scale : Nat) (showFig emit_markdown : Bool)
  | plotnine (saveResult : Except String Unit) (dpi : Nat) (emit_markdown : Bool)

/-- Dispatch one save operation. -/
def runSave (cap : DisplayCap) (folder : String) : SaveOp → World → Except PyError String × World
  | .mpl fig dpi emit cl => show_and_save_mpl cap fig dpi folder emit cl
  | .plotly wi scale sf emit => show_and_save_plotly cap wi folder scale sf emit
  | .plotnine sr dpi emit => show_and_save_plotnine cap sr folder dpi emit

/-- The external library call of the operation succeeds. -/
def SaveOp.backendOk : SaveOp → Prop
  | .mpl _ _ _ _ => True
  | .plotly wi _ _ _ => wi = .ok ()
  | .plotnine sr _ _ => sr = .ok ()

/-- Run save operations in sequence, recording for each one the counter
value it allocated together with its result. -/
def runSaves (cap : DisplayCap) (folder : String) :
    List SaveOp → World → List (Nat × Except PyError String) × World
  | [], w => ([], w)
  | op :: rest, w =>
    let r := runSave cap folder op w
    let rs := runSaves cap folder rest r.2
    ((r.2.state.counter, r.1) :: rs.1, rs.2)

/-- The display capability never raises when invoked by `_embed`. -/
def EmbedOk (cap : DisplayCap) : Prop :=
  ∀ p, ∃ o, _embed cap p = .ok o

/-- The path the allocator hands out for counter value `n` (extension `png`). -/
def mkPath (folder chapter : String) (n : Nat) : String :=
  joinPath folder (chapter ++ "_" ++ fmt03 n ++ "." ++ "png")

end theme_minimal

namespace helpers

/-- The `_CDIState` dataclass of `helpers.py`. -/
structure _CDIState where
  chapter : String
  fig_counter : Nat
deriving DecidableEq

/-- The module-level `_STATE` of `helpers.py` at import time. -/
def initialState : _CDIState :=
  { chapter := "01", fig_counter := 0 }

/-- The mutable world a `helpers` call can touch. -/
structure HWorld where
  state : _CDIState
  fs : FS
  mpl : MplBackend
  out : List NotebookOutput
deriving DecidableEq

/-- Model of `helpers.cdi_notebook_init(chapter)`: store
`str(chapter).zfill(2)`, reset the counter, `Path("figures").mkdir(exist_ok=True)`
(without `parents=True`). -/
def cdi_notebook_init (chapter : String) (s : _CDIState) (fs : FS) : _CDIState × FS :=
  let s1 : _CDIState := { s with chapter := zfill chapter 2, fig_counter := 0 }
  (s1, fs.mkdirExistOk "figures")

/-- Model of `helpers.show_and_save_mpl(fig=None, dpi=160)`: increment the
counter, save to `figures/{chapter}_{counter:03d}.png` (no directory is
created here), `plt.show()`, return the path. -/
def show_and_save_mpl (fig : Option MplFigure) (dpi : Nat) (w : HWorld) :
    Except PyError String × HWorld :=
  let f := fig.getD w.mpl.current
  let s1 : _CDIState := { w.state with fig_counter := w.state.fig_counter + 1 }
  let out := joinPath "figures" (s1.chapter ++ "_" ++ fmt03 s1.fig_counter ++ ".png")
  let w1 : HWorld := { w with state := s1 }
  match savefig w1.fs f out dpi true with
  | .error e => (.error ⟨e, none⟩, w1)
  | .ok fs2 => (.ok out, { w1 with fs := fs2, out := .shownFigure :: w1.out })

end helpers

/-! ### Utility lemmas -/

theorem String_length_data (s : String) : s.length = s.data.length := rfl

theorem String_mk_data (l : List Char) : (String.mk l).data = l := rfl

theorem String_mk_self (s : String) : String.mk s.data = s := rfl

theorem splitOnSlash_ne_nil : ∀ l : List Char, splitOnSlash l ≠ [] := by
  intro l
  cases l with
  | nil => simp [splitOnSlash]
  | cons c cs =>
    unfold splitOnSlash
    cases h : splitOnSlash cs with
    | nil => simp
    | cons g gs => dsimp only []; split <;> simp

theorem joinSegs_splitOnSlash : ∀ l : List Char, joinSegs (splitOnSlash l) = l := by
  intro l
  induction l with
  | nil => rfl
  | cons c cs ih =>
    unfold splitOnSlash
    cases h : splitOnSlash cs with
    | nil => exact absurd h (splitOnSlash_ne_nil cs)
    | cons g gs =>
      rw [h] at ih
      dsimp only []
      by_cases hc : c = '/'
      · subst hc
        rw [if_pos rfl, joinSegs, ih]
        rfl
      · rw [if_neg hc]
        cases gs with
        | nil =>
          rw [joinSegs] at ih ⊢
          rw [ih]
        | cons g2 gs2 =>
          rw [joinSegs] at ih ⊢
          rw [← ih]
          rfl

theorem self_mem_frontsOf : ∀ segs : List (List Char), segs ≠ [] → segs ∈ frontsOf segs := by
  intro segs
  induction segs with
  | nil => intro h; exact absurd rfl h
  | cons s rest ih =>
    intro _
    cases rest with
    | nil => simp [frontsOf]
    | cons t ts =>
      have hmem := ih (by simp)
      unfold frontsOf
      exact List.mem_cons_of_mem _ (List.mem_map_of_mem _ hmem)

theorem self_mem_mkdirPaths (p : String) : p ∈ mkdirPaths p := by
  unfold mkdirPaths
  have h1 := self_mem_frontsOf (splitOnSlash p.data) (splitOnSlash_ne_nil _)
  have h3 := List.mem_map_of_mem (fun segs => String.mk (joinSegs segs)) h1
  simpa [joinSegs_splitOnSlash, String_mk_self] using h3

theorem parentChars_of_not_mem {l : List Char} (h : '/' ∉ l) : parentChars l = [] := by
  cases l with
  | nil => rfl
  | cons c cs =>
    unfold parentChars
    rw [if_neg]
    intro hm
    exact h (List.mem_cons_of_mem _ hm)

theorem parentChars_append {l₂ : List Char} (h : '/' ∉ l₂) :
    ∀ l₁ : List Char, parentChars (l₁ ++ '/' :: l₂) = l₁ := by
  intro l₁
  induction l₁ with
  | nil =>
    simp only [List.nil_append, parentChars, if_neg h]
  | cons c t ih =>
    have hmem : '/' ∈ t ++ '/' :: l₂ := List.mem_append_right _ (List.mem_cons_self _ _)
    calc parentChars ((c :: t) ++ '/' :: l₂)
        = if '/' ∈ t ++ '/' :: l₂ then c :: parentChars (t ++ '/' :: l₂) else [] := rfl
      _ = c :: parentChars (t ++ '/' :: l₂) := if_pos hmem
      _ = c :: t := by rw [ih]

theorem parentDir_joinPath (folder name : String) (h : '/' ∉ name.data) :
    parentDir (joinPath folder name) = if folder = "" then "" else folder := by
  unfold joinPath
  split
  · unfold parentDir
    rw [parentChars_of_not_mem h]
  · unfold parentDir
    have hdata : (folder ++ "/" ++ name).data = folder.data ++ '/' :: name.data := by
      simp [String.data_append]
    rw [hdata, parentChars_append h, String_mk_self]

theorem digitChar_ne_slash (d : Nat) : digitChar d ≠ '/' := by
  unfold digitChar
  split <;> decide

theorem noSlash_natDigitsAux : ∀ fuel n : Nat, '/' ∉ natDigitsAux fuel n := by
  intro fuel
  induction fuel with
  | zero => intro n; simp [natDigitsAux]
  | succ k ih =>
    intro n
    unfold natDigitsAux
    split
    · simp
    · intro hm
      rcases List.mem_append.mp hm with h1 | h2
      · exact ih _ h1
      · simp only [List.mem_singleton] at h2
        exact digitChar_ne_slash _ h2.symm

theorem noSlash_natRepr (n : Nat) : '/' ∉ (natRepr n).data := by
  unfold natRepr
  split
  · decide
  · exact noSlash_natDigitsAux _ _

theorem noSlash_zfill {s : String} (h : '/' ∉ s.data) (w : Nat) : '/' ∉ (zfill s w).data := by
  unfold zfill
  split
  · exact h
  · split
    · next c rest hdata =>
      split
      · intro hm
        rw [String_mk_data] at hm
        rcases List.mem_cons.mp hm with h1 | h2
        · rw [hdata] at h; exact h (h1 ▸ List.mem_cons_self _ _)
        · rcases List.mem_append.mp h2 with h3 | h4
          · have := List.eq_of_mem_replicate h3
            exact absurd this (by decide)
          · rw [hdata] at h; exact h (List.mem_cons_of_mem _ h4)
      · intro hm
        rw [String_mk_data] at hm
        rcases List.mem_append.mp hm with h3 | h4
        · have := List.eq_of_mem_replicate h3
          exact absurd this (by decide)
        · rw [hdata] at h; exact h h4
    · intro hm
      rw [String_mk_data] at hm
      have := List.eq_of_mem_replicate hm
      exact absurd this (by decide)

theorem noSlash_fmt03 (n : Nat) : '/' ∉ (fmt03 n).data :=
  noSlash_zfill (noSlash_natRepr n) 3

theorem zfill_length (s : String) (width : Nat) :
    (zfill s width).length = max s.length width := by
  unfold zfill
  split
  · next h => rw [Nat.max_eq_left h]
  · next h =>
    rw [String_length_data] at h
    split
    · next c rest hdata =>
      have hlen : s.data.length = rest.length + 1 := by
        rw [hdata, List.length_cons]
      split
      · simp only [String_length_data, String_mk_data, List.length_cons,
          List.length_append, List.length_replicate]
        omega
      · simp only [String_length_data, String_mk_data, List.length_append,
          List.length_replicate, List.length_cons]
        omega
    · next hdata =>
      have hlen : s.data.length = 0 := by
        rw [hdata, List.length_nil]
      simp only [String_length_data, String_mk_data, List.length_replicate]
      omega

theorem noSlash_saveName {chapter ext : String} (hc : '/' ∉ chapter.data)
    (he : '/' ∉ ext.data) (n : Nat) :
    '/' ∉ (chapter ++ "_" ++ fmt03 n ++ "." ++ ext).data := by
  intro hm
  simp only [String.data_append, List.mem_append] at hm
  rcases hm with (((h | h) | h) | h) | h
  · exact hc h
  · exact absurd h (by decide)
  · exact noSlash_fmt03 n h
  · exact absurd h (by decide)
  · exact he h

theorem savefig_after_mkdir (fs : FS) (f : MplFigure) (folder name : String)
    (dpi : Nat) (tight : Bool) (h : '/' ∉ name.data) :
    savefig (fs.mkdirParentsExistOk folder) f (joinPath folder name) dpi tight =
      .ok { dirs := (fs.mkdirParentsExistOk folder).dirs,
            files := .mplPng f.id (joinPath folder name) dpi tight ::
              (fs.mkdirParentsExistOk folder).files } := by
  have hd : parentDir (joinPath folder name) = "" ∨
      parentDir (joinPath folder name) ∈ (fs.mkdirParentsExistOk folder).dirs := by
    by_cases hf : folder = ""
    · left
      rw [parentDir_joinPath folder name h, if_pos hf]
    · right
      rw [parentDir_joinPath folder name h, if_neg hf]
      exact List.mem_append_left _ (self_mem_mkdirPaths folder)
  unfold savefig
  rw [if_pos hd]

namespace theme_minimal

theorem png_noSlash : '/' ∉ ("png" : String).data := by decide

theorem _next_path_spec (folder ext : String) (s : ThemeState) (fs : FS) :
    _next_path folder ext s fs =
      (joinPath folder (s.chapter ++ "_" ++ fmt03 (s.counter + 1) ++ "." ++ ext),
       { chapter := s.chapter, counter := s.counter + 1 },
       fs.mkdirParentsExistOk folder) := rfl

theorem show_and_save_mpl_spec (cap : DisplayCap) (fig : Option MplFigure) (dpi : Nat)
    (folder : String) (emit cl : Bool) (w : World) (hcap : EmbedOk cap)
    (hch : '/' ∉ w.state.chapter.data) :
    ∃ o, _embed cap (mkPath folder w.state.chapter (w.state.counter + 1)) = .ok o ∧
    show_and_save_mpl cap fig dpi folder emit cl w =
      (.ok (mkPath folder w.state.chapter (w.state.counter + 1)),
       { state := { chapter := w.state.chapter, counter := w.state.counter + 1 },
         fs := { dirs := mkdirPaths folder ++ w.fs.dirs,
                 files := .mplPng (fig.getD w.mpl.current).id
                     (mkPath folder w.state.chapter (w.state.counter + 1)) dpi true ::
                   w.fs.files },
         mpl := if cl then w.mpl.closeFig (fig.getD w.mpl.current) else w.mpl,
         out := if emit then o :: w.out else w.out }) := by
  obtain ⟨o, ho⟩ := hcap (mkPath folder w.state.chapter (w.state.counter + 1))
  refine ⟨o, ho, ?_⟩
  have hname := noSlash_saveName hch png_noSlash (w.state.counter + 1)
  have hsave := savefig_after_mkdir w.fs (fig.getD w.mpl.current) folder
    (w.state.chapter ++ "_" ++ fmt03 (w.state.counter + 1) ++ "." ++ "png") dpi true hname
  simp only [mkPath] at ho ⊢
  unfold show_and_save_mpl
  simp only [_next_path_spec]
  rw [hsave]
  cases emit <;> cases cl <;>
    simp [ho, FS.mkdirParentsExistOk]

theorem show_and_save_plotly_ok (cap : DisplayCap) (folder : String) (scale : Nat)
    (sf emit : Bool) (w : World) (hcap : EmbedOk cap) :
    ∃ o, _embed cap (mkPath folder w.state.chapter (w.state.counter + 1)) = .ok o ∧
    show_and_save_plotly cap (.ok ()) folder scale sf emit w =
      (.ok (mkPath folder w.state.chapter (w.state.counter + 1)),
       { state := { chapter := w.state.chapter, counter := w.state.counter + 1 },
         fs := { dirs := mkdirPaths folder ++ w.fs.dirs,
                 files := .plotlyPng (mkPath folder w.state.chapter (w.state.counter + 1))
                     scale :: w.fs.files },
         mpl := w.mpl,
         out := (if emit then [o] else []) ++ (if sf then [.shownFigure] else []) ++ w.out }) := by
  obtain ⟨o, ho⟩ := hcap (mkPath folder w.state.chapter (w.state.counter + 1))
  refine ⟨o, ho, ?_⟩
  simp only [mkPath] at ho ⊢
  unfold show_and_save_plotly
  simp only [_next_path_spec]
  cases emit <;> cases sf <;>
    simp [ho, FS.mkdirParentsExistOk]

theorem show_and_save_plotly_fail (cap : DisplayCap) (e : String) (folder : String)
    (scale : Nat) (sf emit : Bool) (w : World) :
    show_and_save_plotly cap (.error e) folder scale sf emit w =
      (.error ⟨kaleidoHint e, some e⟩,
       { state := { chapter := w.state.chapter, counter := w.state.counter + 1 },
         fs := { dirs := mkdirPaths folder ++ w.fs.dirs, files := w.fs.files },
         mpl := w.mpl,
         out := (if sf then [.shownFigure] else []) ++ w.out }) := by
  unfold show_and_save_plotly
  simp only [_next_path_spec]
  cases sf <;> simp [FS.mkdirParentsExistOk]

theorem show_and_save_plotnine_spec (cap : DisplayCap) (folder : String) (dpi : Nat)
    (emit : Bool) (w : World) (hcap : EmbedOk cap) :
    ∃ o, _embed cap (mkPath folder w.state.chapter (w.state.counter + 1)) = .ok o ∧
    show_and_save_plotnine cap (.ok ()) folder dpi emit w =
      (.ok (mkPath folder w.state.chapter (w.state.counter + 1)),
       { state := { chapter := w.state.chapter, counter := w.state.counter + 1 },
         fs := { dirs := mkdirPaths folder ++ w.fs.dirs,
                 files := .plotninePng (mkPath folder w.state.chapter (w.state.counter + 1))
                     dpi :: w.fs.files },
         mpl := w.mpl,
         out := (if emit then [o] else []) ++ w.out }) := by
  obtain ⟨o, ho⟩ := hcap (mkPath folder w.state.chapter (w.state.counter + 1))
  refine ⟨o, ho, ?_⟩
  simp only [mkPath] at ho ⊢
  unfold show_and_save_plotnine
  simp only [_next_path_spec]
  cases emit <;> simp [ho, FS.mkdirParentsExistOk]

theorem runSave_ok (cap : DisplayCap) (folder : String) (op : SaveOp) (w : World)
    (hcap : EmbedOk cap) (hop : op.backendOk) (hch : '/' ∉ w.state.chapter.data) :
    (runSave cap folder op w).1 =
      .ok (mkPath folder w.state.chapter (w.state.counter + 1)) ∧
    (runSave cap folder op w).2.state =
      { chapter := w.state.chapter, counter := w.state.counter + 1 } ∧
    (runSave cap folder op w).2.fs.dirs = mkdirPaths folder ++ w.fs.dirs := by
  cases op with
  | mpl fig dpi emit cl =>
    obtain ⟨o, _, heq⟩ := show_and_save_mpl_spec cap fig dpi folder emit cl w hcap hch
    simp [runSave, heq]
  | plotly wi scale sf emit =>
    have hwi : wi = .ok () := hop
    subst hwi
    obtain ⟨o, _, heq⟩ := show_and_save_plotly_ok cap folder scale sf emit w hcap
    simp [runSave, heq]
  | plotnine sr dpi emit =>
    have hsr : sr = .ok () := hop
    subst hsr
    obtain ⟨o, _, heq⟩ := show_and_save_plotnine_spec cap folder dpi emit w hcap
    simp [runSave, heq]

/-- The record sequence N successful saves starting at counter `c` must
produce: counter values `c+1, ..., c+n`, each paired with the allocated
path. -/
def expectedRuns (folder chapter : String) : Nat → Nat → List (Nat × Except PyError String)
  | _, 0 => []
  | c, n + 1 =>
    (c + 1, .ok (mkPath folder chapter (c + 1))) :: expectedRuns folder chapter (c + 1) n

theorem expectedRuns_eq_range (folder chapter : String) :
    ∀ n c, expectedRuns folder chapter c n =
      (List.range n).map
        (fun i => (c + i + 1, Except.ok (mkPath folder chapter (c + i + 1)))) := by
  intro n
  induction n with
  | zero => intro c; rfl
  | succ k ih =>
    intro c
    rw [expectedRuns, ih (c + 1), List.range_succ_eq_map, List.map_cons, List.map_map]
    refine congrArg₂ _ (by norm_num) ?_
    apply List.map_congr_left
    intro i _
    have harith : c + 1 + i + 1 = c + Nat.succ i + 1 := by omega
    simp only [Function.comp_apply, harith]

theorem runSaves_spec (cap : DisplayCap) (folder : String) (hcap : EmbedOk cap) :
    ∀ (ops : List SaveOp) (w : World), (∀ op ∈ ops, op.backendOk) →
      '/' ∉ w.state.chapter.data →
      (runSaves cap folder ops w).1 =
        expectedRuns folder w.state.chapter w.state.counter ops.length ∧
      (runSaves cap folder ops w).2.state.counter = w.state.counter + ops.length ∧
      (runSaves cap folder ops w).2.state.chapter = w.state.chapter := by
  intro ops
  induction ops with
  | nil =>
    intro w _ _
    exact ⟨rfl, rfl, rfl⟩
  | cons op rest ih =>
    intro w hops hch
    obtain ⟨h1, h2, -⟩ := runSave_ok cap folder op w hcap (hops op (List.mem_cons_self _ _)) hch
    have hch1 : '/' ∉ (runSave cap folder op w).2.state.chapter.data := by
      rw [h2]; exact hch
    obtain ⟨ih1, ih2, ih3⟩ :=
      ih (runSave cap folder op w).2 (fun o ho => hops o (List.mem_cons_of_mem _ ho)) hch1
    refine ⟨?_, ?_, ?_⟩
    · show ((runSave cap folder op w).2.state.counter, (runSave cap folder op w).1) ::
        (runSaves cap folder rest (runSave cap folder op w).2).1 =
        expectedRuns folder w.state.chapter w.state.counter (rest.length + 1)
      rw [expectedRuns, h1, h2, ih1, h2]
    · show (runSaves cap folder rest (runSave cap folder op w).2).2.state.counter =
        w.state.counter + (rest.length + 1)
      rw [ih2, h2]
      show w.state.counter + 1 + rest.length = w.state.counter + (rest.length + 1)
      omega
    · show (runSaves cap folder rest (runSave cap folder op w).2).2.state.chapter =
        w.state.chapter
      rw [ih3, h2]

end theme_minimal

/-! ### Claim theorems -/

open theme_minimal

/-- Claim C2: every call to the path allocator `_next_path` increments the
shared counter by exactly 1, ensures the target folder exists, and returns
the path `folder/{chapter}_{counter zero-padded to 3 digits}.{extension}`;
the chapter and the set of written files are untouched. -/
theorem c2_next_path_contract (folder ext : String) (s : ThemeState) (fs : FS) :
    (_next_path folder ext s fs).1 =
      joinPath folder (s.chapter ++ "_" ++ fmt03 (s.counter + 1) ++ "." ++ ext) ∧
    (_next_path folder ext s fs).2.1.counter = s.counter + 1 ∧
    (_next_path folder ext s fs).2.1.chapter = s.chapter ∧
    folder ∈ (_next_path folder ext s fs).2.2.dirs ∧
    (_next_path folder ext s fs).2.2.files = fs.files := by
  refine ⟨rfl, rfl, rfl, ?_, rfl⟩
  show folder ∈ (fs.mkdirParentsExistOk folder).dirs
  exact List.mem_append_left _ (self_mem_mkdirPaths folder)

/-- Claim C4: re-initializing mid-session resets the counter to 0 whatever
the previous session state was (the resulting session state does not depend
on it), and the first allocation afterwards is numbered `001`. -/
theorem c4_reinit_restarts (chapter folder ext : String) (s s' : ThemeState)
    (fs fs' fs2 : FS) :
    (cdi_notebook_init chapter s fs).1 = (cdi_notebook_init chapter s' fs').1 ∧
    (cdi_notebook_init chapter s fs).1.counter = 0 ∧
    fmt03 (0 + 1) = "001" ∧
    (_next_path folder ext (cdi_notebook_init chapter s fs).1 fs2).1 =
      joinPath folder (zfill chapter 2 ++ "_" ++ "001" ++ "." ++ ext) ∧
    (_next_path folder ext (cdi_notebook_init chapter s fs).1 fs2).2.1.counter = 1 := by
  have h001 : fmt03 (0 + 1) = "001" := by decide
  refine ⟨rfl, rfl, h001, ?_, rfl⟩
  simp only [_next_path_spec, cdi_notebook_init, h001]

/-- Claim C10: with `title=None` the declarative layout finisher leaves the
figure's existing title untouched even when a subtitle is supplied (the
subtitle is silently ignored), and updates exactly the title alignment,
margin and legend placement fields. -/
theorem c10_layout_title_none (fig : PlotlyFigure) (subtitle : Option String)
    (title_x : ℚ) (legend_orientation : String) (legend_y legend_x : ℚ)
    (margin : Option PlotlyMargin) :
    (set_cdi_plotly_layout fig none subtitle title_x legend_orientation
        legend_y legend_x margin).layout.title = fig.layout.title ∧
    (set_cdi_plotly_layout fig none subtitle title_x legend_orientation
        legend_y legend_x margin).layout.title_x = some title_x ∧
    (set_cdi_plotly_layout fig none subtitle title_x legend_orientation
        legend_y legend_x margin).layout.margin =
      some (margin.getD { l := 40, r := 20, t := 85, b := 55 }) ∧
    (set_cdi_plotly_layout fig none subtitle title_x legend_orientation
        legend_y legend_x margin).layout.legend =
      some { orientation := legend_orientation, y := legend_y, x := legend_x } :=
  ⟨rfl, rfl, rfl, rfl⟩

/-- Claim C3 counterexample: initializing with the string "123" stores a
three-character chapter, so the stored chapter is not always exactly two
digits. -/
theorem c3_counterexample :
    (cdi_notebook_init "123" initialState { dirs := [], files := [] }).1.chapter = "123" ∧
    (cdi_notebook_init "123" initialState { dirs := [], files := [] }).1.chapter.length ≠ 2 :=
  ⟨rfl, by decide⟩

/-- Claim C3 (amended): initialization stores `str(chapter).zfill(2)` — a
left zero-pad to length at least 2 — and resets the counter to 0, in both
modules; the stored chapter is exactly two characters whenever the input
has at most two ("3" ↦ "03", str(5) ↦ "05", "07" ↦ "07"), while longer
inputs are stored unchanged. -/
theorem c3_init_zfill (chapter : String) (s : ThemeState) (hs : helpers._CDIState)
    (fs fs' : FS) (h : chapter.length ≤ 2) :
    (cdi_notebook_init chapter s fs).1.chapter = zfill chapter 2 ∧
    (cdi_notebook_init chapter s fs).1.counter = 0 ∧
    (cdi_notebook_init chapter s fs).1.chapter.length = 2 ∧
    (helpers.cdi_notebook_init chapter hs fs').1.chapter = zfill chapter 2 ∧
    (helpers.cdi_notebook_init chapter hs fs').1.fig_counter = 0 ∧
    zfill "3" 2 = "03" ∧ zfill (natRepr 5) 2 = "05" ∧ zfill "07" 2 = "07" := by
  refine ⟨rfl, rfl, ?_, rfl, rfl, rfl, rfl, rfl⟩
  show (zfill chapter 2).length = 2
  rw [zfill_length]
  omega

/-- Witness for the amended C3 at the concrete input "3". -/
theorem c3_init_zfill_witness :
    ("3" : String).length ≤ 2 ∧
    ((cdi_notebook_init "3" initialState { dirs := [], files := [] }).1.chapter =
        zfill "3" 2 ∧
      (cdi_notebook_init "3" initialState { dirs := [], files := [] }).1.counter = 0 ∧
      (cdi_notebook_init "3" initialState { dirs := [], files := [] }).1.chapter.length = 2 ∧
      (helpers.cdi_notebook_init "3" helpers.initialState { dirs := [], files := [] }).1.chapter =
        zfill "3" 2 ∧
      (helpers.cdi_notebook_init "3" helpers.initialState
          { dirs := [], files := [] }).1.fig_counter = 0 ∧
      zfill "3" 2 = "03" ∧ zfill (natRepr 5) 2 = "05" ∧ zfill "07" 2 = "07") :=
  ⟨by decide,
   c3_init_zfill "3" initialState helpers.initialState
     { dirs := [], files := [] } { dirs := [], files := [] } (by decide)⟩

/-- An empty filesystem: no directories, no files. -/
def emptyFS : FS := { dirs := [], files := [] }

/-- A minimal matplotlib context with one open figure. -/
def baseMpl : MplBackend := { current := { id := 0 }, openIds := [0] }

/-- A fresh world: import-time state, empty filesystem, one open figure. -/
def freshWorld : World :=
  { state := initialState, fs := emptyFS, mpl := baseMpl, out := [] }

/-- A display capability whose call-time invocation always raises. -/
def failingDisplay : DisplayCap :=
  .available (fun _ => .error "display broke")

theorem embedOk_unavailable : EmbedOk .unavailable :=
  fun p => ⟨.printed p, rfl⟩

/-- Claim C5 counterexample: when the display capability is present but its
invocation fails, `_embed` propagates the failure instead of swallowing it
and falling back to plain text — so the reporter can raise. -/
theorem c5_counterexample :
    _embed failingDisplay "figures/01_001.png" =
      .error { msg := "display broke", cause := none } := rfl

/-- Claim C5 (amended): if the inline-display capability is unavailable
(the import failed), the reporter emits the path as plain text and does
not raise, and every save adapter still returns the correct saved path
for any value of `emit_markdown`; a failure raised by an available display
callable, however, propagates. -/
theorem c5_unavailable_fallback (path folder : String) (fig : Option MplFigure)
    (dpi scale dpi2 : Nat) (sf emit1 emit2 emit3 cl : Bool) (w1 w2 w3 : World)
    (h1 : '/' ∉ w1.state.chapter.data) :
    _embed .unavailable path = .ok (.printed path) ∧
    (show_and_save_mpl .unavailable fig dpi folder emit1 cl w1).1 =
      .ok (mkPath folder w1.state.chapter (w1.state.counter + 1)) ∧
    (show_and_save_plotly .unavailable (.ok ()) folder scale sf emit2 w2).1 =
      .ok (mkPath folder w2.state.chapter (w2.state.counter + 1)) ∧
    (show_and_save_plotnine .unavailable (.ok ()) folder dpi2 emit3 w3).1 =
      .ok (mkPath folder w3.state.chapter (w3.state.counter + 1)) := by
  obtain ⟨o1, _, he1⟩ :=
    show_and_save_mpl_spec .unavailable fig dpi folder emit1 cl w1 embedOk_unavailable h1
  obtain ⟨o2, _, he2⟩ :=
    show_and_save_plotly_ok .unavailable folder scale sf emit2 w2 embedOk_unavailable
  obtain ⟨o3, _, he3⟩ :=
    show_and_save_plotnine_spec .unavailable folder dpi2 emit3 w3 embedOk_unavailable
  exact ⟨rfl, by rw [he1], by rw [he2], by rw [he3]⟩

/-- Witness for the amended C5 at concrete inputs. -/
theorem c5_unavailable_fallback_witness :
    '/' ∉ freshWorld.state.chapter.data ∧
    (_embed .unavailable "p" = .ok (.printed "p") ∧
     (show_and_save_mpl .unavailable none 300 "figures" false true freshWorld).1 =
       .ok (mkPath "figures" freshWorld.state.chapter (freshWorld.state.counter + 1)) ∧
     (show_and_save_plotly .unavailable (.ok ()) "figures" 2 false false freshWorld).1 =
       .ok (mkPath "figures" freshWorld.state.chapter (freshWorld.state.counter + 1)) ∧
     (show_and_save_plotnine .unavailable (.ok ()) "figures" 300 false freshWorld).1 =
       .ok (mkPath "figures" freshWorld.state.chapter (freshWorld.state.counter + 1))) :=
  ⟨by decide,
   c5_unavailable_fallback "p" "figures" none 300 2 300 false false false false true
     freshWorld freshWorld freshWorld (by decide)⟩

/-- Claim C6: if static image export fails in the plotly save, the
operation fails with a single descriptive error that names kaleido,
includes the underlying cause in its message, and chains the original
exception; on a successful export (with `emit_markdown` true) it invokes
the embedding reporter and returns the allocated path. -/
theorem c6_plotly_error_descriptive (cap : DisplayCap) (e folder : String)
    (scale : Nat) (sf emit sf2 : Bool) (w w' : World) (hcap : EmbedOk cap) :
    (show_and_save_plotly cap (.error e) folder scale sf emit w).1 =
      .error { msg := kaleidoHint e, cause := some e } ∧
    (∃ pre post, kaleidoHint e = pre ++ "kaleido" ++ post) ∧
    (∃ pre, kaleidoHint e = pre ++ e) ∧
    (show_and_save_plotly cap (.ok ()) folder scale sf2 true w').1 =
      .ok (mkPath folder w'.state.chapter (w'.state.counter + 1)) ∧
    (∃ o, _embed cap (mkPath folder w'.state.chapter (w'.state.counter + 1)) = .ok o ∧
      o ∈ (show_and_save_plotly cap (.ok ()) folder scale sf2 true w').2.out) := by
  obtain ⟨o, ho, heq⟩ := show_and_save_plotly_ok cap folder scale sf2 true w' hcap
  refine ⟨by rw [show_and_save_plotly_fail], ?_, ⟨_, rfl⟩, by rw [heq], o, ho, ?_⟩
  · refine ⟨"Plotly PNG export failed. Install ",
      ":\n  pip install -U kaleido\nReason: " ++ e, ?_⟩
    have hlit : ("Plotly PNG export failed. Install " ++ "kaleido" ++
        ":\n  pip install -U kaleido\nReason: " : String) =
        "Plotly PNG export failed. Install kaleido:\n  pip install -U kaleido\nReason: " := by
      decide
    rw [kaleidoHint, ← hlit, String.append_assoc, String.append_assoc]
  · rw [heq]
    simp

/-- Witness for C6 at concrete inputs. -/
theorem c6_plotly_error_descriptive_witness :
    EmbedOk .unavailable ∧
    ((show_and_save_plotly .unavailable (.error "boom") "figures" 2 false true
        freshWorld).1 = .error { msg := kaleidoHint "boom", cause := some "boom" } ∧
     (∃ pre post, kaleidoHint "boom" = pre ++ "kaleido" ++ post) ∧
     (∃ pre, kaleidoHint "boom" = pre ++ "boom") ∧
     (show_and_save_plotly .unavailable (.ok ()) "figures" 2 false true freshWorld).1 =
       .ok (mkPath "figures" freshWorld.state.chapter (freshWorld.state.counter + 1)) ∧
     (∃ o, _embed .unavailable
         (mkPath "figures" freshWorld.state.chapter (freshWorld.state.counter + 1)) =
           .ok o ∧
       o ∈ (show_and_save_plotly .unavailable (.ok ()) "figures" 2 false true
         freshWorld).2.out)) :=
  ⟨embedOk_unavailable,
   c6_plotly_error_descriptive .unavailable "boom" "figures" 2 false true false
     freshWorld freshWorld embedOk_unavailable⟩

/-- A helpers-module world whose filesystem has no directories at all. -/
def hNoDirWorld : helpers.HWorld :=
  { state := helpers.initialState, fs := emptyFS, mpl := baseMpl, out := [] }

/-- Claim C7 counterexample: `helpers.show_and_save_mpl` is a save operation
of this repository that does not create the missing output directory: on a
filesystem without `figures/` it raises, writes no file, and the directory
still does not exist afterwards. -/
theorem c7_counterexample :
    (helpers.show_and_save_mpl none 160 hNoDirWorld).1 =
      .error { msg := "FileNotFoundError: figures/01_001.png", cause := none } ∧
    (helpers.show_and_save_mpl none 160 hNoDirWorld).2.fs.files = [] ∧
    "figures" ∉ (helpers.show_and_save_mpl none 160 hNoDirWorld).2.fs.dirs :=
  ⟨rfl, rfl, by decide⟩

/-- Claim C7 (amended): every save through the `theme_minimal` adapters
creates the target directory and all missing parents on demand (tolerating
pre-existing ones) and succeeds with the expected path, for any starting
filesystem; `helpers.show_and_save_mpl`, by contrast, creates no directory
at save time and relies on initialization having created `figures/`. -/
theorem c7_theme_saves_create_dirs (cap : DisplayCap) (folder : String) (op : SaveOp)
    (w : World) (hcap : EmbedOk cap) (hop : op.backendOk)
    (hch : '/' ∉ w.state.chapter.data) :
    (runSave cap folder op w).1 =
      .ok (mkPath folder w.state.chapter (w.state.counter + 1)) ∧
    folder ∈ (runSave cap folder op w).2.fs.dirs ∧
    ∀ d ∈ mkdirPaths folder, d ∈ (runSave cap folder op w).2.fs.dirs := by
  obtain ⟨h1, _, h3⟩ := runSave_ok cap folder op w hcap hop hch
  refine ⟨h1, ?_, ?_⟩
  · rw [h3]
    exact List.mem_append_left _ (self_mem_mkdirPaths folder)
  · intro d hd
    rw [h3]
    exact List.mem_append_left _ hd

/-- Witness for the amended C7: a nested folder is created with its parent
starting from an empty filesystem. -/
theorem c7_theme_saves_create_dirs_witness :
    EmbedOk .unavailable ∧ SaveOp.backendOk (.plotly (.ok ()) 2 false true) ∧
    '/' ∉ freshWorld.state.chapter.data ∧
    ((runSave .unavailable "figs/sub" (.plotly (.ok ()) 2 false true) freshWorld).1 =
      .ok (mkPath "figs/sub" freshWorld.state.chapter (freshWorld.state.counter + 1)) ∧
     "figs/sub" ∈
       (runSave .unavailable "figs/sub" (.plotly (.ok ()) 2 false true) freshWorld).2.fs.dirs ∧
     ∀ d ∈ mkdirPaths "figs/sub",
       d ∈ (runSave .unavailable "figs/sub" (.plotly (.ok ()) 2 false true)
         freshWorld).2.fs.dirs) :=
  ⟨embedOk_unavailable, rfl, by decide,
   c7_theme_saves_create_dirs .unavailable "figs/sub" (.plotly (.ok ()) 2 false true)
     freshWorld embedOk_unavailable rfl (by decide)⟩

/-- The default arguments of `theme_minimal.show_and_save_mpl`, read off
its signature `(fig=None, *, dpi=300, folder="figures", emit_markdown=True,
close=True)`. -/
def show_and_save_mpl_defaults : Option MplFigure × Nat × String × Bool × Bool :=
  (none, 300, "figures", true, true)

/-- Claim C8: the grid-based save defaults to
`(figure=None, dpi=300, folder="figures", emit_markdown=True, close=True)`;
with no figure supplied it saves the backend's currently active figure,
allocates a png path via the shared allocator, persists at the given dpi
with a tight bounding box, closes the figure from the backend's global
context exactly when `close` is true, and returns the saved path. -/
theorem c8_mpl_save_contract (cap : DisplayCap) (dpi : Nat) (folder : String)
    (emit cl : Bool) (w : World) (hcap : EmbedOk cap)
    (hch : '/' ∉ w.state.chapter.data) :
    show_and_save_mpl_defaults = (none, 300, "figures", true, true) ∧
    (show_and_save_mpl cap none dpi folder emit cl w).1 =
      .ok (mkPath folder w.state.chapter (w.state.counter + 1)) ∧
    (show_and_save_mpl cap none dpi folder emit cl w).2.fs.files =
      .mplPng w.mpl.current.id (mkPath folder w.state.chapter (w.state.counter + 1))
        dpi true :: w.fs.files ∧
    (show_and_save_mpl cap none dpi folder emit cl w).2.mpl =
      (if cl then w.mpl.closeFig w.mpl.current else w.mpl) ∧
    (cl = true →
      w.mpl.current.id ∉ (show_and_save_mpl cap none dpi folder emit cl w).2.mpl.openIds) := by
  obtain ⟨o, ho, heq⟩ := show_and_save_mpl_spec cap none dpi folder emit cl w hcap hch
  refine ⟨rfl, by rw [heq], by simp [heq], by simp [heq], ?_⟩
  intro hcl
  subst hcl
  rw [heq]
  simp [MplBackend.closeFig, List.mem_filter]

/-- Witness for C8 at concrete inputs. -/
theorem c8_mpl_save_contract_witness :
    EmbedOk .unavailable ∧ '/' ∉ freshWorld.state.chapter.data ∧
    (show_and_save_mpl_defaults = (none, 300, "figures", true, true) ∧
     (show_and_save_mpl .unavailable none 300 "figures" true true freshWorld).1 =
       .ok (mkPath "figures" freshWorld.state.chapter (freshWorld.state.counter + 1)) ∧
     (show_and_save_mpl .unavailable none 300 "figures" true true freshWorld).2.fs.files =
       .mplPng freshWorld.mpl.current.id
         (mkPath "figures" freshWorld.state.chapter (freshWorld.state.counter + 1))
         300 true :: freshWorld.fs.files ∧
     (show_and_save_mpl .unavailable none 300 "figures" true true freshWorld).2.mpl =
       (if true then freshWorld.mpl.closeFig freshWorld.mpl.current else freshWorld.mpl) ∧
     (true = true →
       freshWorld.mpl.current.id ∉
         (show_and_save_mpl .unavailable none 300 "figures" true true
           freshWorld).2.mpl.openIds)) :=
  ⟨embedOk_unavailable, by decide,
   c8_mpl_save_contract .unavailable 300 "figures" true true freshWorld
     embedOk_unavailable (by decide)⟩

/-- World after one successful matplotlib save in chapter "01". -/
def c9World1 : World :=
  (show_and_save_mpl .unavailable none 300 "figures" true true freshWorld).2

/-- World after a subsequent failed plotly export (kaleido missing). -/
def c9World2 : World :=
  (show_and_save_plotly .unavailable (.error "no kaleido") "figures" 2 false true
    c9World1).2

/-- Claim C9 counterexample: after a save that wrote `01_001` and a failed
plotly export that consumed `002`, the next successful save is `01_003` —
two higher than the last file actually written, not one higher as claimed. -/
theorem c9_counterexample :
    (show_and_save_mpl .unavailable none 300 "figures" true true freshWorld).1 =
      .ok "figures/01_001.png" ∧
    c9World1.fs.files.map FileRec.path = ["figures/01_001.png"] ∧
    (show_and_save_plotly .unavailable (.error "no kaleido") "figures" 2 false true
        c9World1).1 =
      .error { msg := kaleidoHint "no kaleido", cause := some "no kaleido" } ∧
    c9World2.fs.files.map FileRec.path = ["figures/01_001.png"] ∧
    (show_and_save_mpl .unavailable none 300 "figures" true true c9World2).1 =
      .ok "figures/01_003.png" ∧
    ("figures/01_003.png" : String) ≠ "figures/01_002.png" :=
  ⟨rfl, rfl, rfl, rfl, rfl, by decide⟩

/-- Claim C9 (amended): a failed static export has already incremented the
shared counter and it is not rolled back — the failed call permanently
consumes one sequence number and writes no file, so the next successful
save in the chapter is numbered two higher than the last file actually
written (one higher than the consumed number). -/
theorem c9_failed_export_consumes_number (cap : DisplayCap) (e folder : String)
    (scale : Nat) (sf emit : Bool) (op : SaveOp) (w : World) (hcap : EmbedOk cap)
    (hop : op.backendOk) (hch : '/' ∉ w.state.chapter.data) :
    (show_and_save_plotly cap (.error e) folder scale sf emit w).1 =
      .error { msg := kaleidoHint e, cause := some e } ∧
    (show_and_save_plotly cap (.error e) folder scale sf emit w).2.state.counter =
      w.state.counter + 1 ∧
    (show_and_save_plotly cap (.error e) folder scale sf emit w).2.fs.files =
      w.fs.files ∧
    (runSave cap folder op
        (show_and_save_plotly cap (.error e) folder scale sf emit w).2).1 =
      .ok (mkPath folder w.state.chapter (w.state.counter + 2)) := by
  have hfail := show_and_save_plotly_fail cap e folder scale sf emit w
  refine ⟨by rw [hfail], by rw [hfail], by rw [hfail], ?_⟩
  rw [hfail]
  have hstep := runSave_ok cap folder op
    { state := { chapter := w.state.chapter, counter := w.state.counter + 1 },
      fs := { dirs := mkdirPaths folder ++ w.fs.dirs, files := w.fs.files },
      mpl := w.mpl,
      out := (if sf then [NotebookOutput.shownFigure] else []) ++ w.out }
    hcap hop hch
  exact hstep.1.trans rfl

/-- Witness for the amended C9 at concrete inputs. -/
theorem c9_failed_export_consumes_number_witness :
    EmbedOk .unavailable ∧ SaveOp.backendOk (.mpl none 300 true true) ∧
    '/' ∉ freshWorld.state.chapter.data ∧
    ((show_and_save_plotly .unavailable (.error "no kaleido") "figures" 2 false true
        freshWorld).1 =
      .error { msg := kaleidoHint "no kaleido", cause := some "no kaleido" } ∧
     (show_and_save_plotly .unavailable (.error "no kaleido") "figures" 2 false true
        freshWorld).2.state.counter = freshWorld.state.counter + 1 ∧
     (show_and_save_plotly .unavailable (.error "no kaleido") "figures" 2 false true
        freshWorld).2.fs.files = freshWorld.fs.files ∧
     (runSave .unavailable "figures" (.mpl none 300 true true)
        (show_and_save_plotly .unavailable (.error "no kaleido") "figures" 2 false true
          freshWorld).2).1 =
      .ok (mkPath "figures" freshWorld.state.chapter (freshWorld.state.counter + 2))) :=
  ⟨embedOk_unavailable, trivial, by decide,
   c9_failed_export_consumes_number .unavailable "no kaleido" "figures" 2 false true
     (.mpl none 300 true true) freshWorld embedOk_unavailable trivial (by decide)⟩

/-- Claim C1: from a freshly initialized chapter session, N sequential saves
through any mix of the three adapters produce exactly the allocation records
`(1, ok {folder}/{chapter}_001.png), ..., (N, ok {folder}/{chapter}_00N.png)`
— no gaps, repeats or reordering — the final counter equals N, and no two
allocations use the same counter value. -/
theorem c1_sequential_saves (cap : DisplayCap) (folder chapter : String)
    (ops : List SaveOp) (s0 : ThemeState) (fs0 : FS) (w : World)
    (hcap : EmbedOk cap) (hops : ∀ op ∈ ops, op.backendOk)
    (hfresh : w.state = (cdi_notebook_init chapter s0 fs0).1)
    (hch : '/' ∉ chapter.data) :
    (runSaves cap folder ops w).1 =
      (List.range ops.length).map
        (fun i => (i + 1, Except.ok (mkPath folder (zfill chapter 2) (i + 1)))) ∧
    (runSaves cap folder ops w).2.state.counter = ops.length ∧
    ((runSaves cap folder ops w).1.map Prod.fst).Nodup := by
  have hchap : w.state.chapter = zfill chapter 2 := by rw [hfresh]; rfl
  have hc0 : w.state.counter = 0 := by rw [hfresh]; rfl
  have hch2 : '/' ∉ w.state.chapter.data := by
    rw [hchap]
    exact noSlash_zfill hch 2
  obtain ⟨h1, h2, h3⟩ := runSaves_spec cap folder hcap ops w hops hch2
  refine ⟨?_, ?_, ?_⟩
  · rw [h1, hchap, hc0, expectedRuns_eq_range]
    apply List.map_congr_left
    intro i _
    simp
  · rw [h2, hc0, Nat.zero_add]
  · rw [h1, hchap, hc0, expectedRuns_eq_range, List.map_map]
    have hcomp : (Prod.fst ∘ fun i =>
        (0 + i + 1,
         Except.ok (ε := PyError) (mkPath folder (zfill chapter 2) (0 + i + 1)))) =
        fun i : Nat => 0 + i + 1 := rfl
    rw [hcomp]
    exact List.Nodup.map (fun a b hab => by omega) (List.nodup_range _)

/-- Witness for C1: three saves, one through each adapter, after
initializing chapter "2". -/
theorem c1_sequential_saves_witness :
    EmbedOk .unavailable ∧
    (∀ op ∈ ([.mpl none 300 true true, .plotly (.ok ()) 2 false true,
        .plotnine (.ok ()) 300 true] : List SaveOp), op.backendOk) ∧
    ({ state := { chapter := "02", counter := 0 }, fs := emptyFS, mpl := baseMpl,
       out := [] } : World).state = (cdi_notebook_init "2" initialState emptyFS).1 ∧
    '/' ∉ ("2" : String).data ∧
    ((runSaves .unavailable "figures"
        [.mpl none 300 true true, .plotly (.ok ()) 2 false true,
         .plotnine (.ok ()) 300 true]
        { state := { chapter := "02", counter := 0 }, fs := emptyFS, mpl := baseMpl,
          out := [] }).1 =
      (List.range 3).map
        (fun i => (i + 1, Except.ok (mkPath "figures" (zfill "2" 2) (i + 1)))) ∧
     (runSaves .unavailable "figures"
        [.mpl none 300 true true, .plotly (.ok ()) 2 false true,
         .plotnine (.ok ()) 300 true]
        { state := { chapter := "02", counter := 0 }, fs := emptyFS, mpl := baseMpl,
          out := [] }).2.state.counter = 3 ∧
     ((runSaves .unavailable "figures"
        [.mpl none 300 true true, .plotly (.ok ()) 2 false true,
         .plotnine (.ok ()) 300 true]
        { state := { chapter := "02", counter := 0 }, fs := emptyFS, mpl := baseMpl,
          out := [] }).1.map Prod.fst).Nodup) :=
  ⟨embedOk_unavailable,
   by
     intro op h
     simp only [List.mem_cons, List.not_mem_nil, or_false] at h
     rcases h with rfl | rfl | rfl
     · trivial
     · rfl
     · rfl,
   by decide, by decide,
   c1_sequential_saves .unavailable "figures" "2"
     [.mpl none 300 true true, .plotly (.ok ()) 2 false true,
      .plotnine (.ok ()) 300 true]
     initialState emptyFS
     { state := { chapter := "02", counter := 0 }, fs := emptyFS, mpl := baseMpl,
       out := [] }
     embedOk_unavailable
     (by
       intro op h
       simp only [List.mem_cons, List.not_mem_nil, or_false] at h
       rcases h with rfl | rfl | rfl
       · trivial
       · rfl
       · rfl)
     (by decide) (by decide)⟩

end CdiMl
